import Mathlib

/-
Verification of the tsuru deployment fabfile (src/fabfile.py).

The script drives a remote host through a fabric-style remote-execution
collaborator.  We embed it shallowly: the mutable fabric `env` record becomes
the structure `Env`, each task (`stop`, `update`, `build`, `start`, `deploy`)
becomes a function from an environment to the pair of the resulting
environment and the trace of remote commands it issues.  A remote command is
an `Event`: the working-directory scope in force when it was issued, whether a
pseudo-terminal was requested, and the literal command string.
-/

namespace Fabfile

/-- One remote command as issued through the remote-execution channel:
`wd` is the scoped remote working directory in force (`none` when no
directory scope is active), `pty` is whether a pseudo-terminal is requested
(fabric's default is `true`; `start` passes `pty=False`), and `cmd` is the
literal command string. -/
structure Event where
  wd : Option String
  pty : Bool
  cmd : String
deriving DecidableEq, Repr

/-- The fabric-style configuration record as populated at module load
(src/fabfile.py lines 4-7): a remote username, the repository root path
`tsuru_path`, the two derived service paths, and the ambient scoped working
directory `cwd` managed by the collaborator's `cd` context (initially none). -/
structure Env where
  user : String
  tsuru_path : String
  collector_path : String
  webserverd_path : String
  cwd : Option String
deriving DecidableEq, Repr

/-- Construction of the configuration record from a configured
username/root-path pair, exactly as lines 4-7 of src/fabfile.py compute it:
`collector_path` is the root path followed by `/collector` and
`webserverd_path` is the root path followed by `/api/webserverd`
(the Python `%s` formatting is string concatenation here); no directory
scope is active initially. -/
def mkEnv (user tsuru_path : String) : Env :=
  { user := user
  , tsuru_path := tsuru_path
  , collector_path := tsuru_path ++ "/collector"
  , webserverd_path := tsuru_path ++ "/api/webserverd"
  , cwd := none }

/-- The record the script actually builds: username `ubuntu` and the fixed
repository root path. -/
def env : Env := mkEnv "ubuntu" "/home/ubuntu/.go/src/github.com/timeredbull/tsuru"

/-- Modelled from the spec: fabric's `run` (the remote-execution collaborator,
not part of src/) runs one command string on the remote host as the configured
user, inside the currently scoped working directory, optionally without a
pseudo-terminal.  It issues exactly one remote command and leaves the
configuration untouched. -/
def run (cmd : String) (pty : Bool) (e : Env) : Env × List Event :=
  (e, [⟨e.cwd, pty, cmd⟩])

/-- Modelled from the spec: fabric's `cd` directory-scoping context (the
collaborator, not part of src/) makes the commands run inside the block
execute in the given remote directory, and the collaborator restores the
previous scope when the block exits. -/
def withCd (dir : String) (body : Env → Env × List Event) (e : Env) : Env × List Event :=
  let r := body { e with cwd := some dir }
  ({ r.1 with cwd := e.cwd }, r.2)

/-- src/fabfile.py `stop` (lines 10-12): force-kill `webserverd`, then
force-kill `collector`. -/
def stop (e : Env) : Env × List Event :=
  let r1 := run "killall -9 webserverd" true e
  let r2 := run "killall -9 collector" true r1.1
  (r2.1, r1.2 ++ r2.2)

/-- src/fabfile.py `update` (lines 15-17): fetch and install the latest
source of each service's module path. -/
def update (e : Env) : Env × List Event :=
  let r1 := run "go get -u github.com/timeredbull/tsuru/collector" true e
  let r2 := run "go get -u github.com/timeredbull/tsuru/api/webserverd" true r1.1
  (r2.1, r1.2 ++ r2.2)

/-- src/fabfile.py `build` (lines 20-25): inside the collector directory
compile an output binary named `collector`, then inside the webserver-daemon
directory compile an output binary named `webserverd`. -/
def build (e : Env) : Env × List Event :=
  let r1 := withCd e.collector_path (run "go build -o collector main.go" true) e
  let r2 := withCd r1.1.webserverd_path (run "go build -o webserverd main.go" true) r1.1
  (r2.1, r1.2 ++ r2.2)

/-- src/fabfile.py `start` (lines 28-30): launch each compiled binary
detached (`nohup ... &`), standard output and error and standard input
redirected to the null device, without a pseudo-terminal (`pty=False`). -/
def start (e : Env) : Env × List Event :=
  let r1 := run ("nohup " ++ e.collector_path ++ "/collector >& /dev/null < /dev/null &") false e
  let r2 := run ("nohup " ++ r1.1.webserverd_path ++ "/webserverd >& /dev/null < /dev/null &") false r1.1
  (r2.1, r1.2 ++ r2.2)

/-- src/fabfile.py `deploy` (lines 33-37): call `stop`, `update`, `build`,
`start` in that order, threading the environment through, with no branching
and no error handling of its own. -/
def deploy (e : Env) : Env × List Event :=
  let r1 := stop e
  let r2 := update r1.1
  let r3 := build r2.1
  let r4 := start r3.1
  (r4.1, r1.2 ++ r2.2 ++ r3.2 ++ r4.2)

/-- The command strings of a trace. -/
def cmds (tr : List Event) : List String := tr.map Event.cmd

/-- Modelled from the spec: the failure semantics of the remote-execution
collaborator is not part of src/.  Per the spec, a non-zero remote exit
status raises and propagates as a failure of that single command, aborting
the remaining steps of the script.  Given an oracle `fails` saying which
issued commands fail, `execTrace fails tr` is the list of commands actually
issued at runtime: execution halts right after the first failing command. -/
def execTrace (fails : Event → Bool) : List Event → List Event
  | [] => []
  | ev :: rest => if fails ev then [ev] else ev :: execTrace fails rest

/-- Whether every command of a trace succeeds under the failure oracle. -/
def allOk (fails : Event → Bool) (tr : List Event) : Bool :=
  tr.all fun ev => !fails ev

/-- A concrete failure oracle for which the very first command issued by
`deploy` (the `webserverd` kill of the Stop phase) fails. -/
def failsFirst : Event → Bool := fun ev => ev.cmd == "killall -9 webserverd"

lemma execTrace_cons (fails : Event → Bool) (ev : Event) (rest : List Event) :
    execTrace fails (ev :: rest) = if fails ev then [ev] else ev :: execTrace fails rest :=
  rfl

lemma execTrace_append (fails : Event → Bool) (l1 l2 : List Event) :
    execTrace fails (l1 ++ l2) =
      if allOk fails l1 = true then l1 ++ execTrace fails l2 else execTrace fails l1 := by
  induction l1 with
  | nil => simp [allOk]
  | cons ev rest ih =>
    rw [List.cons_append, execTrace_cons, execTrace_cons]
    by_cases h : fails ev
    · simp [allOk, h]
    · rw [if_neg h, if_neg h, ih]
      by_cases hrest : allOk fails rest = true
      · have hcons : allOk fails (ev :: rest) = true := by
          simp only [allOk, List.all_cons, h, Bool.not_false, Bool.true_and]
          simpa [allOk] using hrest
        rw [if_pos hrest, if_pos hcons, List.cons_append]
      · have hcons : ¬ allOk fails (ev :: rest) = true := by
          simp only [allOk, List.all_cons, h, Bool.not_false, Bool.true_and]
          simpa [allOk] using hrest
        rw [if_neg hrest, if_neg hcons]

/-- Claim C3: for every configured username/root-path pair, the derived
collector path equals the root path followed by `/collector`, and the derived
webserver-daemon path equals the root path followed by `/api/webserverd`. -/
theorem derived_paths_from_root (u r : String) :
    (mkEnv u r).collector_path = r ++ "/collector" ∧
    (mkEnv u r).webserverd_path = r ++ "/api/webserverd" :=
  ⟨rfl, rfl⟩

/-- Claim C4: for every configured username/root-path pair, `stop` issues
exactly two remote commands, the force-kill of `webserverd` and the
force-kill of `collector` both appear in its trace, and every command it
issues is one of those two kill commands (no other command is issued). -/
theorem stop_exactly_two_terminates (u r : String) :
    ((stop (mkEnv u r)).2).length = 2 ∧
    (⟨none, true, "killall -9 webserverd"⟩ : Event) ∈ (stop (mkEnv u r)).2 ∧
    (⟨none, true, "killall -9 collector"⟩ : Event) ∈ (stop (mkEnv u r)).2 ∧
    ((stop (mkEnv u r)).2).all
      (fun ev => ev.cmd == "killall -9 webserverd" || ev.cmd == "killall -9 collector") = true := by
  refine ⟨rfl, ?_, ?_, rfl⟩
  · simp [stop, run, mkEnv]
  · simp [stop, run, mkEnv]

/-- Claim C9: `stop` issues its two kill commands in a fixed deterministic
order, the command killing `webserverd` strictly before the command killing
`collector`: its trace is exactly that two-element sequence, and the index
of the `webserverd` kill is strictly below the index of the `collector`
kill. -/
theorem stop_order_webserverd_first (u r : String) :
    (stop (mkEnv u r)).2 =
      [⟨none, true, "killall -9 webserverd"⟩, ⟨none, true, "killall -9 collector"⟩] ∧
    (cmds ((stop (mkEnv u r)).2)).indexOf "killall -9 webserverd"
      < (cmds ((stop (mkEnv u r)).2)).indexOf "killall -9 collector" := by
  refine ⟨rfl, ?_⟩
  have hc : cmds ((stop (mkEnv u r)).2) = ["killall -9 webserverd", "killall -9 collector"] := rfl
  rw [hc]
  decide

/-- Claim C5: for every configured username/root-path pair, `update` issues
exactly two remote commands: the fetch-install of the collector service's
module path and the fetch-install of the webserver-daemon service's module
path, and no others. -/
theorem update_exactly_two_fetches (u r : String) :
    ((update (mkEnv u r)).2).length = 2 ∧
    (update (mkEnv u r)).2 =
      [ ⟨none, true, "go get -u github.com/timeredbull/tsuru/collector"⟩,
        ⟨none, true, "go get -u github.com/timeredbull/tsuru/api/webserverd"⟩ ] :=
  ⟨rfl, rfl⟩

/-- Claim C6: for every configured username/root-path pair, `build` issues
exactly two remote commands and no others: the first scoped to the configured
collector directory and producing an output binary literally named
`collector`, the second scoped to the configured webserver-daemon directory
and producing an output binary literally named `webserverd`. -/
theorem build_exactly_two_compiles (u r : String) :
    (build (mkEnv u r)).2 =
      [ ⟨some (r ++ "/collector"), true, "go build -o collector main.go"⟩,
        ⟨some (r ++ "/api/webserverd"), true, "go build -o webserverd main.go"⟩ ] ∧
    ((build (mkEnv u r)).2).length = 2 :=
  ⟨rfl, rfl⟩

/-- Claim C7: for every configured username/root-path pair, `start` issues
exactly two remote commands and no others, both without a pseudo-terminal
(`pty = false`), each a detached `nohup ... &` launch with standard output,
error and input redirected to `/dev/null`, the first referencing the compiled
binary under the configured collector path and the second the compiled binary
under the configured webserver-daemon path. -/
theorem start_exactly_two_detached (u r : String) :
    (start (mkEnv u r)).2 =
      [ ⟨none, false, "nohup " ++ (r ++ "/collector") ++ "/collector >& /dev/null < /dev/null &"⟩,
        ⟨none, false, "nohup " ++ (r ++ "/api/webserverd") ++ "/webserverd >& /dev/null < /dev/null &"⟩ ] ∧
    ((start (mkEnv u r)).2).all (fun ev => ev.pty == false) = true ∧
    ((start (mkEnv u r)).2).length = 2 :=
  ⟨rfl, rfl, rfl⟩

/-- Claim C1: for every configured username/root-path pair, the trace of
remote commands issued by `deploy` equals the concatenation of the traces of
`stop`, `update`, `build` and `start` in that order, and consists of exactly
those eight commands in the fixed order: the two kills, the two
fetch-installs, the two compiles (each carrying the directory scope of its
service), the two detached launches. -/
theorem deploy_trace_is_concatenation (u r : String) :
    (deploy (mkEnv u r)).2 =
      (stop (mkEnv u r)).2 ++ (update (mkEnv u r)).2 ++ (build (mkEnv u r)).2 ++ (start (mkEnv u r)).2 ∧
    ((deploy (mkEnv u r)).2).length = 8 ∧
    (deploy (mkEnv u r)).2 =
      [ ⟨none, true, "killall -9 webserverd"⟩,
        ⟨none, true, "killall -9 collector"⟩,
        ⟨none, true, "go get -u github.com/timeredbull/tsuru/collector"⟩,
        ⟨none, true, "go get -u github.com/timeredbull/tsuru/api/webserverd"⟩,
        ⟨some (r ++ "/collector"), true, "go build -o collector main.go"⟩,
        ⟨some (r ++ "/api/webserverd"), true, "go build -o webserverd main.go"⟩,
        ⟨none, false, "nohup " ++ (r ++ "/collector") ++ "/collector >& /dev/null < /dev/null &"⟩,
        ⟨none, false, "nohup " ++ (r ++ "/api/webserverd") ++ "/webserverd >& /dev/null < /dev/null &"⟩ ] :=
  ⟨rfl, rfl, rfl⟩

/-- Claim C8: the configuration is never mutated: every operation returns the
environment it was given unchanged (in particular the username, root path and
both derived service paths are unchanged; `build`'s directory scoping is
restored by the collaborator, so even the ambient scope field is back to its
initial value). -/
theorem config_never_mutated (e : Env) :
    (stop e).1 = e ∧ (update e).1 = e ∧ (build e).1 = e ∧
    (start e).1 = e ∧ (deploy e).1 = e :=
  ⟨rfl, rfl, rfl, rfl, rfl⟩

/-- Claim C2 counterexample: when the very first Stop command (the
`webserverd` kill) fails, the commands actually issued at runtime are only
that single failing command, and the Update phase's fetch command is never
issued — so the subsequent phases are not still executed, contrary to the
claim. -/
theorem deploy_failure_halts_counterexample :
    failsFirst (⟨none, true, "killall -9 webserverd"⟩ : Event) = true ∧
    (⟨none, true, "killall -9 webserverd"⟩ : Event) ∈ (stop (mkEnv "u" "p")).2 ∧
    execTrace failsFirst ((deploy (mkEnv "u" "p")).2) =
      [⟨none, true, "killall -9 webserverd"⟩] ∧
    "go get -u github.com/timeredbull/tsuru/collector"
      ∉ cmds (execTrace failsFirst ((deploy (mkEnv "u" "p")).2)) := by
  refine ⟨rfl, ?_, ?_, ?_⟩
  · simp [stop, run, mkEnv]
  · rfl
  · decide

/-- Claim C2 as amended: the orchestrator layer captures or inspects no error
(`deploy` is the unconditional concatenation of the four phases), but when a
command of the Stop phase fails, the subsequent phases do NOT still run: the
runtime trace of `deploy` is exactly the runtime trace of `stop` alone,
because the collaborator's failure propagation aborts the script at the
failing command. -/
theorem deploy_no_recovery_abort (u r : String) (fails : Event → Bool)
    (h : allOk fails ((stop (mkEnv u r)).2) = false) :
    (deploy (mkEnv u r)).2 =
      (stop (mkEnv u r)).2 ++ (update (mkEnv u r)).2 ++ (build (mkEnv u r)).2 ++ (start (mkEnv u r)).2 ∧
    execTrace fails ((deploy (mkEnv u r)).2) = execTrace fails ((stop (mkEnv u r)).2) := by
  refine ⟨rfl, ?_⟩
  have hd : (deploy (mkEnv u r)).2 =
      (stop (mkEnv u r)).2 ++
        ((update (mkEnv u r)).2 ++ ((build (mkEnv u r)).2 ++ (start (mkEnv u r)).2)) := rfl
  rw [hd, execTrace_append, h]
  simp

/-- Claim C2 witness: the amended theorem applied at the default
configuration pair and the oracle failing the first kill command. -/
theorem deploy_no_recovery_abort_witness :
    (deploy (mkEnv "u" "p")).2 =
      (stop (mkEnv "u" "p")).2 ++ (update (mkEnv "u" "p")).2 ++ (build (mkEnv "u" "p")).2 ++ (start (mkEnv "u" "p")).2 ∧
    execTrace failsFirst ((deploy (mkEnv "u" "p")).2) = execTrace failsFirst ((stop (mkEnv "u" "p")).2) :=
  deploy_no_recovery_abort "u" "p" failsFirst (by decide)

lemma string_data_eq {a b : String} (h : a.data = b.data) : a = b := by
  cases a
  cases b
  exact congrArg String.mk (by simpa using h)

lemma string_append_cancel_right {a b c : String} (h : a ++ c = b ++ c) : a = b := by
  apply string_data_eq
  have hd : a.data ++ c.data = b.data ++ c.data := by
    have := congrArg String.data h
    simpa [String.data_append] using this
  exact List.append_cancel_right hd

lemma string_append_cancel_left {a b c : String} (h : a ++ b = a ++ c) : b = c := by
  apply string_data_eq
  have hd : a.data ++ b.data = a.data ++ c.data := by
    have := congrArg String.data h
    simpa [String.data_append] using this
  exact List.append_cancel_left hd

/-- Claim C10: the two commands issued by `update` are fixed literals, the
same full events for any two configurations whatever their usernames and
root paths; whereas for two configurations with different root paths the
traces of `build` and of `start` differ (so reconfiguring the root path does
not change where `update` fetches source from, while it does move the build
scopes and the launched binary paths). -/
theorem update_commands_root_independent (u1 r1 u2 r2 : String) (h : r1 ≠ r2) :
    (update (mkEnv u1 r1)).2 = (update (mkEnv u2 r2)).2 ∧
    (build (mkEnv u1 r1)).2 ≠ (build (mkEnv u2 r2)).2 ∧
    (start (mkEnv u1 r1)).2 ≠ (start (mkEnv u2 r2)).2 := by
  refine ⟨rfl, ?_, ?_⟩
  · intro hb
    apply h
    have h1 : (⟨some (r1 ++ "/collector"), true, "go build -o collector main.go"⟩ : Event)
        = ⟨some (r2 ++ "/collector"), true, "go build -o collector main.go"⟩ := by
      have := congrArg List.head? hb
      simpa [build, withCd, run, mkEnv] using this
    have h2 : r1 ++ "/collector" = r2 ++ "/collector" := by
      have := congrArg Event.wd h1
      simpa using this
    exact string_append_cancel_right h2
  · intro hs
    apply h
    have h1 : (⟨(none : Option String), false,
          "nohup " ++ (r1 ++ "/collector") ++ "/collector >& /dev/null < /dev/null &"⟩ : Event)
        = ⟨none, false, "nohup " ++ (r2 ++ "/collector") ++ "/collector >& /dev/null < /dev/null &"⟩ := by
      have := congrArg List.head? hs
      simpa [start, run, mkEnv] using this
    have h2 : "nohup " ++ ((r1 ++ "/collector") ++ "/collector >& /dev/null < /dev/null &")
        = "nohup " ++ ((r2 ++ "/collector") ++ "/collector >& /dev/null < /dev/null &") := by
      have := congrArg Event.cmd h1
      simpa using this
    have h3 := string_append_cancel_left h2
    have h4 := string_append_cancel_right h3
    exact string_append_cancel_right h4

/-- Claim C10 witness: the theorem applied at two concrete configurations
whose root paths differ. -/
theorem update_commands_root_independent_witness :
    (update (mkEnv "u" "a")).2 = (update (mkEnv "v" "b")).2 ∧
    (build (mkEnv "u" "a")).2 ≠ (build (mkEnv "v" "b")).2 ∧
    (start (mkEnv "u" "a")).2 ≠ (start (mkEnv "v" "b")).2 :=
  update_commands_root_independent "u" "a" "v" "b" (by decide)

end Fabfile
